import Mathlib

/-!
Verification of the gating and code-redemption engine of `main.py`
(a Telegram file-distribution bot built on aiogram 3).

Shallow embedding conventions:
- SQLite tables become lists of row structures inside `DBState`; the
  AUTOINCREMENT surrogate keys that a claim reads are modelled with explicit
  counters, and timestamp columns (never read by any claim) are omitted.
- Telegram API calls (membership lookup, sends) are external effects; they are
  passed in as explicit oracles (`Int → Int → Except Unit MemberStatus` for
  `bot.get_chat_member`, `ItemRow → Bool` success oracles for sends), where
  `Except.error` models a raised exception.
- Handlers become pure functions from the database state (plus the relevant
  message/callback payload) to the new state and an outcome value describing
  the reply that the source sends.
-/

/-- Row of the `users` table (`telegram_id` UNIQUE; columns `last_name`,
`created_at`, `last_active` are never read by the verified code paths and
are omitted). -/
structure UserRow where
  telegram_id : Int
  username : Option String
  first_name : String
  is_admin : Bool
deriving DecidableEq

/-- Row of the `channels` table (`channel_id` UNIQUE; `added_at` omitted). -/
structure ChannelRow where
  channel_id : Int
  channel_username : Option String
  channel_title : String
  added_by : Int
  is_active : Bool
deriving DecidableEq

/-- Row of the `whitelist` table (`user_id` UNIQUE; `added_at` omitted). -/
structure WhitelistRow where
  user_id : Int
  added_by : Int
deriving DecidableEq

/-- Row of the `files` table (one redeemable bundle; `code` UNIQUE,
`created_at` omitted). -/
structure FileRow where
  id : Nat
  code : String
  admin_id : Int
  description : Option String
deriving DecidableEq

/-- Row of the `file_items` table; `file_id` references `files(id)` with a
declared `ON DELETE CASCADE`. -/
structure ItemRow where
  id : Nat
  file_id : Nat
  file_type : String
  telegram_file_id : String
  file_name : Option String
  file_size : Option Nat
deriving DecidableEq

/-- The SQLite database state.  Row order is insertion order (the `ORDER BY
added_at DESC` clauses of the listing queries are irrelevant to every claim
and are abstracted to stored order).  `next_file_id` / `next_item_id` model
the AUTOINCREMENT counters. -/
structure DBState where
  users : List UserRow
  channels : List ChannelRow
  whitelist : List WhitelistRow
  files : List FileRow
  file_items : List ItemRow
  next_file_id : Nat
  next_item_id : Nat
deriving DecidableEq

/-- `Database.is_admin`: `SELECT is_admin FROM users WHERE telegram_id = ?`;
returns the stored flag, `False` when no row matches. -/
def Database.is_admin (db : DBState) (telegram_id : Int) : Bool :=
  match db.users.find? (fun u => u.telegram_id == telegram_id) with
  | some u => u.is_admin
  | none => false

/-- `Database.is_whitelisted`: `SELECT 1 FROM whitelist WHERE user_id = ?`,
true iff a row exists. -/
def Database.is_whitelisted (db : DBState) (user_id : Int) : Bool :=
  db.whitelist.any (fun w => w.user_id == user_id)

/-- `Database.get_user`: `SELECT * FROM users WHERE telegram_id = ?`. -/
def Database.get_user (db : DBState) (telegram_id : Int) : Option UserRow :=
  db.users.find? (fun u => u.telegram_id == telegram_id)

/-- `Database.get_user_by_username`: looks a user up by handle after
`username.replace(chr(64), str())`, i.e. with every at-sign removed. -/
def Database.get_user_by_username (db : DBState) (username : String) : Option UserRow :=
  let uname := String.mk (username.data.filter (fun c => !(c == '@')))
  db.users.find? (fun u => u.username == some uname)

/-- `Database.get_all_channels`: `SELECT * FROM channels WHERE is_active = 1`. -/
def Database.get_all_channels (db : DBState) : List ChannelRow :=
  db.channels.filter (fun c => c.is_active)

/-- `Database.get_file_by_code`: `SELECT * FROM files WHERE code = ?`. -/
def Database.get_file_by_code (db : DBState) (code : String) : Option FileRow :=
  db.files.find? (fun f => f.code == code)

/-- `Database.get_file_items`: `SELECT * FROM file_items WHERE file_id = ?`. -/
def Database.get_file_items (db : DBState) (file_id : Nat) : List ItemRow :=
  db.file_items.filter (fun it => it.file_id == file_id)

/-- `Database.create_file`: `INSERT INTO files (code, admin_id, description)`.
The schema declares `code TEXT UNIQUE NOT NULL`, so inserting a code that is
already present raises `sqlite3.IntegrityError`, modelled as `Except.error ()`;
on success the new row id (`cursor.lastrowid`) is returned. -/
def Database.create_file (db : DBState) (code : String) (admin_id : Int) :
    Except Unit (DBState × Nat) :=
  if db.files.any (fun f => f.code == code) then Except.error ()
  else
    Except.ok ({ db with
        files := db.files ++ [{ id := db.next_file_id, code := code,
                                admin_id := admin_id, description := none }],
        next_file_id := db.next_file_id + 1 }, db.next_file_id)

/-- `Database.add_file_item`: plain `INSERT INTO file_items`. -/
def Database.add_file_item (db : DBState) (file_id : Nat)
    (file_type telegram_file_id : String)
    (file_name : Option String) (file_size : Option Nat) : DBState :=
  { db with
    file_items := db.file_items ++
      [{ id := db.next_item_id, file_id := file_id, file_type := file_type,
         telegram_file_id := telegram_file_id, file_name := file_name,
         file_size := file_size }],
    next_item_id := db.next_item_id + 1 }

/-- `Database.delete_file`: executes only `DELETE FROM files WHERE id = ?`.
The `file_items` schema declares `ON DELETE CASCADE`, but SQLite keeps
foreign-key enforcement OFF unless a connection runs `PRAGMA foreign_keys=ON`;
`Database.get_connection` opens each short-lived connection with a bare
`sqlite3.connect(self.db_path)` and never issues that pragma, so the cascade
never fires and the item rows are left untouched. -/
def Database.delete_file (db : DBState) (file_id : Nat) : DBState :=
  { db with files := db.files.filter (fun f => !(f.id == file_id)) }

/-- `Database.remove_channel`: `DELETE FROM channels WHERE channel_id = ?`. -/
def Database.remove_channel (db : DBState) (channel_id : Int) : DBState :=
  { db with channels := db.channels.filter (fun c => !(c.channel_id == channel_id)) }

/-- `Database.add_to_whitelist`: `INSERT OR IGNORE INTO whitelist` and then
`return True`.  A duplicate `user_id` makes the insert a silent no-op, but the
function still returns `True`: the `False` branch is reachable only through a
raised exception, which the plain insert of two integers never produces. -/
def Database.add_to_whitelist (db : DBState) (user_id added_by : Int) : DBState × Bool :=
  if db.whitelist.any (fun w => w.user_id == user_id) then (db, true)
  else ({ db with whitelist := db.whitelist ++ [{ user_id := user_id, added_by := added_by }] }, true)

/-- `Database.remove_from_whitelist`: `DELETE FROM whitelist WHERE user_id = ?`,
returning `cursor.rowcount > 0`. -/
def Database.remove_from_whitelist (db : DBState) (user_id : Int) : DBState × Bool :=
  let rest := db.whitelist.filter (fun w => !(w.user_id == user_id))
  ({ db with whitelist := rest }, rest.length < db.whitelist.length)

/-- The 36-symbol alphabet `string.ascii_uppercase + string.digits` used by
`CodeGenerator.generate_code`; the regex class `[A-Z0-9]` of
`CodeGenerator.validate_code` denotes exactly these characters. -/
def codeAlphabet : List Char :=
  ['A','B','C','D','E','F','G','H','I','J','K','L','M','N','O','P','Q','R',
   'S','T','U','V','W','X','Y','Z','0','1','2','3','4','5','6','7','8','9']

/-- Membership in the regex character class `[A-Z0-9]`. -/
def isCodeChar (c : Char) : Bool :=
  codeAlphabet.contains c

/-- `CodeGenerator.generate_code()`: `random.choices(characters, k=8)` draws
8 independent uniform indices into the 36-character alphabet; `pick`
abstracts the randomness by supplying those indices. -/
def CodeGenerator.generate_code (pick : Fin 8 → Fin 36) : String :=
  String.mk ((List.finRange 8).map (fun i => codeAlphabet.getD (pick i).val 'A'))

/-- `CodeGenerator.validate_code`: `bool(re.match(r'...', code))` with the
pattern anchored as eight characters of `[A-Z0-9]` followed by the dollar
anchor.  Python `re` (without MULTILINE) lets that anchor match both at the
very end of the string and just before a single newline that ends the string,
so the function also accepts a valid 8-character code followed by one
trailing newline. -/
def CodeGenerator.validate_code (s : String) : Bool :=
  (s.data.length == 8 && s.data.all isCodeChar)
  || (s.data.length == 9 && (s.data.take 8).all isCodeChar
        && s.data.getLast? == some '\n')

/-- Membership status constants of the Telegram API used by the source
(`chat_member.status in ['left', 'kicked']`). -/
inductive MemberStatus where
  | creator
  | administrator
  | member
  | restricted
  | left
  | kicked
deriving DecidableEq

/-- `ChannelChecker.check_subscription(user_id, channels)`: for each channel,
`bot.get_chat_member` is queried (oracle `gcm`, with `Except.error` modelling
any raised exception); the channel is appended to `not_subscribed` when the
status is `left` or `kicked`, and also in the `except` branch, i.e. on any
lookup failure. -/
def ChannelChecker.notSubscribed (gcm : Int → Int → Except Unit MemberStatus)
    (user_id : Int) (ch : ChannelRow) : Bool :=
  match gcm ch.channel_id user_id with
  | Except.ok s =>
      match s with
      | MemberStatus.left => true
      | MemberStatus.kicked => true
      | _ => false
  | Except.error _ => true

/-- The filtering loop of `check_subscription` itself. -/
def ChannelChecker.check_subscription
    (gcm : Int → Int → Except Unit MemberStatus)
    (user_id : Int) (channels : List ChannelRow) : List ChannelRow :=
  channels.filter (ChannelChecker.notSubscribed gcm user_id)

/-- An inbound aiogram event as the middleware distinguishes it:
`isinstance(event, Message)` with its optional `text`, or a callback query. -/
inductive Event where
  | message (text : Option String)
  | callback (cbdata : String)
deriving DecidableEq

/-- Outcome of `SubscriptionMiddleware.__call__`: either the underlying
handler is invoked (`handled`) or the subscription prompt listing the given
channels is sent and the handler is not invoked (`prompted`). -/
inductive MwOutcome where
  | handled
  | prompted (channels : List ChannelRow)
deriving DecidableEq

/-- `SubscriptionMiddleware.__call__`.  The exemption test is
`self.db.is_admin(user_id) or self.db.is_whitelisted(user_id)` — note that it
consults only the stored per-user flag and the whitelist table, not the
static `ADMIN_IDS` list.  The trigger test is
`isinstance(event, Message) and event.text and len(event.text) == 8`; the
truthiness of `event.text` is subsumed by the length test, since an empty
text has length 0. -/
def SubscriptionMiddleware.call
    (gcm : Int → Int → Except Unit MemberStatus)
    (db : DBState) (ev : Event) (user_id : Int) : MwOutcome :=
  if Database.is_admin db user_id || Database.is_whitelisted db user_id then
    MwOutcome.handled
  else
    match ev with
    | Event.message (some t) =>
        if t.length == 8 then
          let chs := Database.get_all_channels db
          if chs.isEmpty then MwOutcome.handled
          else
            let ns := ChannelChecker.check_subscription gcm user_id chs
            if ns.isEmpty then MwOutcome.handled
            else MwOutcome.prompted ns
        else MwOutcome.handled
    | _ => MwOutcome.handled

/-- Python `str.strip()` whitespace predicate, restricted to the ASCII
whitespace characters (space, tab, newline, carriage return, vertical tab,
form feed). -/
def pyIsSpace (c : Char) : Bool :=
  c == ' ' || c == '\t' || c == '\n' || c == '\r' || c == '\x0b' || c == '\x0c'

/-- List-level body of Python `str.strip()`: drop leading and trailing
whitespace. -/
def pyStripList (l : List Char) : List Char :=
  ((l.dropWhile pyIsSpace).reverse.dropWhile pyIsSpace).reverse

/-- Python `str.strip()`. -/
def pyStrip (s : String) : String :=
  String.mk (pyStripList s.data)

/-- Python `str.upper()` (ASCII behaviour, which covers every character the
claims quantify over). -/
def pyUpper (s : String) : String :=
  String.mk (s.data.map Char.toUpper)

/-- The normalization `message.text.strip().upper()` performed by
`process_code` before any validation or lookup. -/
def normalize_submission (text : String) : String :=
  pyUpper (pyStrip text)

/-- Reply of the `process_code` handler (state `waiting_for_code`):
format error (state kept), unknown code (state cleared), bundle with no items
(state cleared), or delivery of the listed items (state cleared). -/
inductive CodeReply where
  | formatError
  | notFound
  | emptyBundle
  | delivered (items : List ItemRow)
deriving DecidableEq

/-- Body of `process_code` after the normalization: validate the format,
look the bundle up by code, fetch its items, and deliver them. -/
def process_code_lookup (db : DBState) (code : String) : CodeReply :=
  if CodeGenerator.validate_code code then
    match Database.get_file_by_code db code with
    | none => CodeReply.notFound
    | some f =>
        match Database.get_file_items db f.id with
        | [] => CodeReply.emptyBundle
        | items => CodeReply.delivered items
  else CodeReply.formatError

/-- `process_code`: `code = message.text.strip().upper()` followed by the
validation/lookup/delivery body. -/
def process_code (db : DBState) (text : String) : CodeReply :=
  process_code_lookup db (normalize_submission text)

/-- The per-item delivery loop of `process_code` (and of the admin
`download_file` handler).  `psend` tells whether the primary typed send
(`answer_photo` / `answer_video` / `answer_document`, chosen by `file_type`)
succeeds; on its failure the `except` branch runs one generic
`answer_document` fallback (`fsend`).  That fallback call is NOT inside the
`try`, so when it raises too, the exception propagates and the loop stops.
The result pairs every attempted item with whether some send for it
succeeded, plus a flag telling whether the loop ran to completion (the final
success message is sent only in that case). -/
def deliver_items (psend fsend : ItemRow → Bool) :
    List ItemRow → List (ItemRow × Bool) × Bool
  | [] => ([], true)
  | it :: rest =>
      if psend it then
        let r := deliver_items psend fsend rest
        ((it, true) :: r.1, r.2)
      else if fsend it then
        let r := deliver_items psend fsend rest
        ((it, true) :: r.1, r.2)
      else
        ([(it, false)], false)

/-- One accumulated entry of the upload batch (the dicts the
`waiting_for_files` handler appends to `data['files']`). -/
structure PendingFile where
  ftype : String
  file_id : String
  name : Option String
  size : Option Nat
deriving DecidableEq

/-- Reply of the upload-completion branch of `process_files`. -/
inductive UploadReply where
  | nothingUploaded
  | created (code : String) (count : Nat)
deriving DecidableEq

/-- The `/done` branch of `process_files`: with an empty accumulator the
admin gets the nothing-uploaded error; otherwise `generate_code` is called
exactly once (its result is `code`) and `create_file` is called exactly once,
with no `try`/`except` around it — a uniqueness-constraint failure therefore
propagates out of the handler (`Except.error`), with no regeneration and no
retry; on success every accumulated item is inserted in collection order. -/
def process_files_done (db : DBState) (admin_id : Int) (code : String)
    (files : List PendingFile) : Except Unit (DBState × UploadReply) :=
  if files.isEmpty then Except.ok (db, UploadReply.nothingUploaded)
  else
    match Database.create_file db code admin_id with
    | Except.error e => Except.error e
    | Except.ok (db1, fid) =>
        Except.ok
          (files.foldl (fun d f =>
              Database.add_file_item d fid f.ftype f.file_id f.name f.size) db1,
           UploadReply.created code files.length)

/-- The `delete_file_<id>` callback handler: it parses the bundle id from the
callback data and immediately calls `Database.delete_file` — unlike the
sibling handlers (`upload_file`, `my_files`, `add_channel`, ...), it never
reads `callback.from_user.id` against `ADMIN_IDS`, so it acts identically for
every caller. -/
def delete_file_handler (db : DBState) (file_id : Nat) : DBState :=
  Database.delete_file db file_id

/-- The `remove_channel_<id>` callback handler: parses the channel id and
calls `Database.remove_channel` with no `ADMIN_IDS` check on the caller. -/
def remove_channel_handler (db : DBState) (channel_id : Int) : DBState :=
  Database.remove_channel db channel_id

/-- The `remove_wl_<id>` callback handler: parses the user id and calls
`Database.remove_from_whitelist` with no `ADMIN_IDS` check on the caller. -/
def remove_whitelist_handler (db : DBState) (user_id : Int) : DBState × Bool :=
  Database.remove_from_whitelist db user_id

/-- Python `str.isdigit()` restricted to ASCII digits, which covers every
input the claims quantify over. -/
def pyIsDigitStr (s : String) : Bool :=
  (!s.data.isEmpty) && s.data.all Char.isDigit

/-- Python `int(text)` on a string that passed `isdigit()`. -/
def parseDigits (l : List Char) : Nat :=
  l.foldl (fun n c => n * 10 + (c.toNat - 48)) 0

/-- Reply of `process_whitelist_add` (state `waiting_for_whitelist_user`). -/
inductive WlReply where
  | userNotFound
  | success
  | alreadyError
deriving DecidableEq

/-- `process_whitelist_add`: `text = message.text.strip()`; a leading
at-sign means lookup by stored handle, a purely numeric text is a direct id
lookup (a resolved id of 0 is falsy in Python and also rejected).  When no
known user matches, the must-have-started error is shown and the state kept.
Otherwise `add_to_whitelist` runs and its boolean selects the success or the
already-present error message. -/
def process_whitelist_add (db : DBState) (admin_id : Int) (text0 : String) :
    DBState × WlReply :=
  let text := pyStrip text0
  let found : Option (Int × UserRow) :=
    match text.data with
    | '@' :: rest =>
        match Database.get_user_by_username db (String.mk rest) with
        | some u => some (u.telegram_id, u)
        | none => none
    | _ =>
        if pyIsDigitStr text then
          let uid : Int := Int.ofNat (parseDigits text.data)
          match Database.get_user db uid with
          | some u => some (uid, u)
          | none => none
        else none
  match found with
  | none => (db, WlReply.userNotFound)
  | some (uid, _) =>
      if uid == 0 then (db, WlReply.userNotFound)
      else
        let r := Database.add_to_whitelist db uid admin_id
        if r.2 then (r.1, WlReply.success) else (r.1, WlReply.alreadyError)

/-- The spec side of the code format, written from the specification text:
exactly 8 characters, each an uppercase letter or digit. -/
def specCodeFormat (s : String) : Prop :=
  s.data.length = 8 ∧ ∀ ch ∈ s.data, ch ∈ codeAlphabet

/-- The variant family of claim C10, written from its words: a
per-character case variant of a code, in which every character is either the
original or its lowercased form.  The all-original instance is the plain
whitespace-padded variant; the all-lowercased instance is the lowercase
variant. -/
def caseVariant : List Char → List Char → Bool
  | [], [] => true
  | mc :: ms, cc :: cs => (mc == cc || mc == Char.toLower cc) && caseVariant ms cs
  | _, _ => false

/-! ### Concrete instances used by the counterexamples and witnesses -/

/-- A gating channel registration. -/
def chEx : ChannelRow :=
  { channel_id := -100, channel_username := some "mychan", channel_title := "My Channel",
    added_by := 42, is_active := true }

/-- A stored bundle with code `ABCD1234`. -/
def fileEx : FileRow :=
  { id := 1, code := "ABCD1234", admin_id := 42, description := none }

/-- An item belonging to bundle 1. -/
def itemEx : ItemRow :=
  { id := 1, file_id := 1, file_type := "photo", telegram_file_id := "tgf1",
    file_name := some "photo_1.jpg", file_size := none }

/-- A second item, for the delivery batch. -/
def itemEx2 : ItemRow :=
  { id := 2, file_id := 1, file_type := "video", telegram_file_id := "tgf2",
    file_name := some "clip.mp4", file_size := some 1000 }

/-- A stored non-admin user record (the bot creates every user with
`is_admin DEFAULT FALSE` and provides no promotion path). -/
def userEx (tid : Int) : UserRow :=
  { telegram_id := tid, username := some "someone", first_name := "S", is_admin := false }

/-- A possible value of the startup-configured static admin-id list
`ADMIN_IDS` (parsed from the environment at process start). -/
def adminIdsEx : List Int := [42]

/-- Database: one bundle (with one item), one active channel, one whitelist
entry, and the static admin 42 stored as a regular (non-flagged) user. -/
def dbEx : DBState :=
  { users := [userEx 42, userEx 5], channels := [chEx], whitelist := [{ user_id := 5, added_by := 42 }],
    files := [fileEx], file_items := [itemEx], next_file_id := 2, next_item_id := 2 }

/-- Database with nobody whitelisted and no bundle. -/
def dbNoWl : DBState :=
  { users := [userEx 42, userEx 5], channels := [chEx], whitelist := [],
    files := [], file_items := [], next_file_id := 1, next_item_id := 1 }

/-- Membership oracle that reports `left` for every (channel, user) pair. -/
def gcmLeft : Int → Int → Except Unit MemberStatus := fun _ _ => Except.ok MemberStatus.left

/-- One pending upload entry. -/
def pfEx : PendingFile :=
  { ftype := "document", file_id := "tgdoc", name := some "a.pdf", size := some 5 }

/-! ### General helper lemmas -/

theorem list_isEmpty_false {α : Type} {l : List α} (h : l ≠ []) : l.isEmpty = false := by
  cases l with
  | nil => exact absurd rfl h
  | cons x xs => rfl

theorem dropWhile_append_of_all {α : Type} {p : α → Bool} :
    ∀ (a b : List α), (∀ x ∈ a, p x = true) → (a ++ b).dropWhile p = b.dropWhile p
  | [], _, _ => rfl
  | x :: xs, b, h => by
      rw [List.cons_append, List.dropWhile_cons]
      simp only [h x (List.mem_cons_self x xs), if_true]
      exact dropWhile_append_of_all xs b (fun y hy => h y (List.mem_cons_of_mem x hy))

theorem dropWhile_eq_nil_of_all {α : Type} {p : α → Bool} :
    ∀ (l : List α), (∀ x ∈ l, p x = true) → l.dropWhile p = []
  | [], _ => rfl
  | x :: xs, h => by
      rw [List.dropWhile_cons]
      simp only [h x (List.mem_cons_self x xs), if_true]
      exact dropWhile_eq_nil_of_all xs (fun y hy => h y (List.mem_cons_of_mem x hy))

theorem dropWhile_eq_self_of_all {α : Type} {p : α → Bool} (l : List α)
    (h : ∀ x ∈ l, p x = false) : l.dropWhile p = l := by
  cases l with
  | nil => rfl
  | cons x xs =>
      rw [List.dropWhile_cons]
      simp [h x (List.mem_cons_self x xs)]

theorem map_eq_self_of_mem {α : Type} {f : α → α} :
    ∀ {l : List α}, (∀ x ∈ l, f x = x) → l.map f = l
  | [], _ => rfl
  | x :: xs, h => by
      rw [List.map_cons, h x (List.mem_cons_self x xs),
          map_eq_self_of_mem (fun y hy => h y (List.mem_cons_of_mem x hy))]

theorem string_append_data (a b : String) : (a ++ b).data = a.data ++ b.data := by
  cases a; cases b; rfl

theorem string_ext {a b : String} (h : a.data = b.data) : a = b := by
  cases a; cases b; exact congrArg String.mk h

/-- Stripping a string whose core is whitespace-free and whose two pads are
all-whitespace yields exactly the core. -/
theorem pyStripList_pad (w1 m w2 : List Char)
    (h1 : ∀ x ∈ w1, pyIsSpace x = true)
    (h2 : ∀ x ∈ w2, pyIsSpace x = true)
    (hm : ∀ x ∈ m, pyIsSpace x = false) :
    pyStripList (w1 ++ m ++ w2) = m := by
  unfold pyStripList
  rw [List.append_assoc, dropWhile_append_of_all _ _ h1]
  cases m with
  | nil =>
      rw [List.nil_append, dropWhile_eq_nil_of_all _ h2]
      rfl
  | cons a as =>
      rw [List.cons_append, List.dropWhile_cons]
      simp only [hm a (List.mem_cons_self a as), if_false, Bool.false_eq_true]
      rw [show a :: (as ++ w2) = (a :: as) ++ w2 from rfl, List.reverse_append,
          dropWhile_append_of_all _ _ (by intro x hx; exact h2 x (List.mem_reverse.mp hx)),
          dropWhile_eq_self_of_all _ (by intro x hx; exact hm x (List.mem_reverse.mp hx)),
          List.reverse_reverse]

/-- Stripping a whitespace-free string is the identity. -/
theorem pyStripList_eq_self (l : List Char)
    (h : ∀ x ∈ l, pyIsSpace x = false) : pyStripList l = l := by
  unfold pyStripList
  rw [dropWhile_eq_self_of_all _ h,
      dropWhile_eq_self_of_all _ (by intro x hx; exact h x (List.mem_reverse.mp hx)),
      List.reverse_reverse]

/-! ### Character facts about the code alphabet -/

theorem isCodeChar_iff {c : Char} : isCodeChar c = true ↔ c ∈ codeAlphabet := by
  unfold isCodeChar
  exact List.elem_iff

theorem toUpper_eq_of_mem {c : Char} (h : c ∈ codeAlphabet) : c.toUpper = c := by
  fin_cases h <;> decide

theorem toUpper_toLower_of_mem {c : Char} (h : c ∈ codeAlphabet) :
    c.toLower.toUpper = c := by
  fin_cases h <;> decide

theorem not_space_of_mem {c : Char} (h : c ∈ codeAlphabet) : pyIsSpace c = false := by
  fin_cases h <;> decide

theorem not_space_toLower_of_mem {c : Char} (h : c ∈ codeAlphabet) :
    pyIsSpace c.toLower = false := by
  fin_cases h <;> decide

theorem getD_codeAlphabet_isCodeChar :
    ∀ v : Fin 36, isCodeChar (codeAlphabet.getD v.val 'A') = true := by decide

/-! ### Claim theorems -/

/-- C1 (code bug): the admin-only per-id stateless actions are not
access-checked.  The `delete_file_<id>`, `remove_channel_<id>` and
`remove_wl_<id>` callback handlers (and likewise `view_file_` /
`download_file_`) never compare `callback.from_user.id` with `ADMIN_IDS`,
unlike their sibling list handlers, so they act identically for every
caller; with `ADMIN_IDS = [42]`, a caller such as user 7 outside the static
admin set still triggers the repository mutation, contradicting the claimed
rejection-with-no-mutation. -/
theorem admin_actions_unchecked_mutation :
    (7 : Int) ∉ adminIdsEx
    ∧ (delete_file_handler dbEx 1).files = [] ∧ dbEx.files ≠ []
    ∧ (remove_channel_handler dbEx (-100)).channels = [] ∧ dbEx.channels ≠ []
    ∧ (remove_whitelist_handler dbEx 5).1.whitelist = [] ∧ dbEx.whitelist ≠ [] := by
  decide

/-- C2 counterexample: user 42 is in the static configured admin-id set but
has no stored admin flag (the source creates every user row with
`is_admin DEFAULT FALSE` and offers no promotion path) and is not
whitelisted; on an 8-character text with one active channel the gating
middleware prompts them — `SubscriptionMiddleware.call` consults only
`Database.is_admin` and `Database.is_whitelisted`, never the static set. -/
theorem static_admin_receives_prompt :
    (42 : Int) ∈ adminIdsEx
    ∧ Database.is_admin dbNoWl 42 = false
    ∧ SubscriptionMiddleware.call gcmLeft dbNoWl (Event.message (some "AAAAAAAA")) 42
        = MwOutcome.prompted [chEx] := by
  decide

/-- C2 (amended): the gating decision exempts exactly the two sources it
reads — a user whose stored record has the admin flag, or who is
whitelisted, never receives a subscription prompt, for every inbound event
and every channel state; membership in the static configured admin-id set is
not consulted by the gate. -/
theorem gate_exempts_stored_admin_or_whitelisted
    (gcm : Int → Int → Except Unit MemberStatus) (db : DBState) (ev : Event) (uid : Int)
    (h : Database.is_admin db uid = true ∨ Database.is_whitelisted db uid = true) :
    SubscriptionMiddleware.call gcm db ev uid = MwOutcome.handled := by
  unfold SubscriptionMiddleware.call
  rcases h with h | h <;> simp [h]

/-- Witness for the C2 amended theorem: the whitelisted user 5 passes
through. -/
theorem gate_exempts_witness :
    SubscriptionMiddleware.call gcmLeft dbEx (Event.message (some "AAAAAAAA")) 5
      = MwOutcome.handled :=
  gate_exempts_stored_admin_or_whitelisted gcmLeft dbEx (Event.message (some "AAAAAAAA")) 5
    (Or.inr (by decide))

/-- C3 (code bug): deleting bundle 1 removes its `files` row, but — since
foreign-key enforcement is never enabled on the per-call sqlite
connections — the declared `ON DELETE CASCADE` does not fire and the
bundle's item row survives as an orphan still referencing file id 1. -/
theorem delete_file_orphans_items :
    (Database.delete_file dbEx 1).files = []
    ∧ (Database.delete_file dbEx 1).file_items = [itemEx]
    ∧ itemEx.file_id = 1 := by
  decide

/-- C4 (code bug): on upload completion with a non-empty accumulator, when
the freshly generated code collides with a stored bundle's code,
`create_file` raises the uniqueness IntegrityError and `process_files`
propagates it (`Except.error`): no new code is generated, creation is not
retried, and the admin never receives the success report. -/
theorem upload_code_collision_propagates :
    Database.get_file_by_code dbEx "ABCD1234" = some fileEx
    ∧ process_files_done dbEx 42 "ABCD1234" [pfEx] = Except.error () :=
  ⟨rfl, rfl⟩

/-- C6 counterexample: the dollar anchor of Python `re` also matches just
before a single newline that ends the string, so `validate_code` accepts the
9-character string of the code `ABCD1234` followed by a newline, which is
not "exactly 8 characters". -/
theorem validate_code_accepts_trailing_newline :
    CodeGenerator.validate_code "ABCD1234\n" = true
    ∧ ("ABCD1234\n" : String).data.length = 9 := by
  decide

/-- The loop body of `check_subscription` holds exactly on a reported status
of `left` or `kicked`, or on a raised lookup. -/
theorem notSubscribed_iff (gcm : Int → Int → Except Unit MemberStatus)
    (user_id : Int) (ch : ChannelRow) :
    ChannelChecker.notSubscribed gcm user_id ch = true ↔
      ((∃ s, gcm ch.channel_id user_id = Except.ok s
            ∧ (s = MemberStatus.left ∨ s = MemberStatus.kicked))
        ∨ gcm ch.channel_id user_id = Except.error ()) := by
  unfold ChannelChecker.notSubscribed
  cases hg : gcm ch.channel_id user_id with
  | ok s => cases s <;> simp
  | error e => cases e; simp

/-- C9: `check_subscription(userId, channels)` returns exactly the channels
whose membership lookup reports `left` or `kicked`, or whose lookup raises —
a lookup failure is always counted as not-subscribed (fail closed), never as
subscribed. -/
theorem check_subscription_membership
    (gcm : Int → Int → Except Unit MemberStatus) (user_id : Int)
    (channels : List ChannelRow) (c : ChannelRow) :
    c ∈ ChannelChecker.check_subscription gcm user_id channels ↔
      c ∈ channels ∧
        ((∃ s, gcm c.channel_id user_id = Except.ok s
              ∧ (s = MemberStatus.left ∨ s = MemberStatus.kicked))
          ∨ gcm c.channel_id user_id = Except.error ()) := by
  unfold ChannelChecker.check_subscription
  rw [List.mem_filter, notSubscribed_iff]

/-- C5: for a non-exempt user, the gating check triggers exactly on a plain
text message whose length is 8 — every other event shape passes through
untouched; when triggered with an empty active channel set the event passes
through; with a non-empty set the user is prompted iff the Subscription
Checker reports at least one missing channel, the prompt listing exactly the
missing channels and the underlying handler not being invoked. -/
theorem gating_trigger_and_prompt
    (gcm : Int → Int → Except Unit MemberStatus) (db : DBState) (uid : Int)
    (hA : Database.is_admin db uid = false)
    (hW : Database.is_whitelisted db uid = false) :
    (∀ s : String,
        SubscriptionMiddleware.call gcm db (Event.callback s) uid = MwOutcome.handled)
    ∧ SubscriptionMiddleware.call gcm db (Event.message none) uid = MwOutcome.handled
    ∧ (∀ t : String, t.length ≠ 8 →
        SubscriptionMiddleware.call gcm db (Event.message (some t)) uid = MwOutcome.handled)
    ∧ (∀ t : String, t.length = 8 → Database.get_all_channels db = [] →
        SubscriptionMiddleware.call gcm db (Event.message (some t)) uid = MwOutcome.handled)
    ∧ (∀ t : String, t.length = 8 → Database.get_all_channels db ≠ [] →
        ChannelChecker.check_subscription gcm uid (Database.get_all_channels db) = [] →
        SubscriptionMiddleware.call gcm db (Event.message (some t)) uid = MwOutcome.handled)
    ∧ (∀ t : String, t.length = 8 → Database.get_all_channels db ≠ [] →
        ChannelChecker.check_subscription gcm uid (Database.get_all_channels db) ≠ [] →
        SubscriptionMiddleware.call gcm db (Event.message (some t)) uid =
          MwOutcome.prompted
            (ChannelChecker.check_subscription gcm uid (Database.get_all_channels db))) := by
  have hx : (Database.is_admin db uid || Database.is_whitelisted db uid) = false := by
    rw [hA, hW]; rfl
  refine ⟨?_, ?_, ?_, ?_, ?_, ?_⟩
  · intro s; simp [SubscriptionMiddleware.call, hx]
  · simp [SubscriptionMiddleware.call, hx]
  · intro t ht; simp [SubscriptionMiddleware.call, hx, ht]
  · intro t ht hch; simp [SubscriptionMiddleware.call, hx, ht, hch]
  · intro t ht hch hns
    simp [SubscriptionMiddleware.call, hx, ht, list_isEmpty_false hch, hns]
  · intro t ht hch hns
    simp [SubscriptionMiddleware.call, hx, ht, list_isEmpty_false hch, list_isEmpty_false hns]

/-- Witness for C5: user 7 (not exempt in `dbNoWl`) sending an 8-character
text with one unsubscribed active channel is prompted with exactly the
checker's missing-channel list. -/
theorem gating_trigger_and_prompt_witness :
    SubscriptionMiddleware.call gcmLeft dbNoWl (Event.message (some "AAAAAAAA")) 7 =
      MwOutcome.prompted
        (ChannelChecker.check_subscription gcmLeft 7 (Database.get_all_channels dbNoWl)) :=
  (gating_trigger_and_prompt gcmLeft dbNoWl 7 (by decide) (by decide)).2.2.2.2.2
    "AAAAAAAA" (by decide) (by decide) (by decide)

/-- C6 (amended): `validate_code s` holds exactly when `s` is either exactly
8 characters of `[A-Z0-9]`, or such an 8-character code followed by one
trailing newline (the extra case admitted by the Python dollar anchor); and
every code `generate_code` can produce validates. -/
theorem validate_code_characterization :
    (∀ s : String, CodeGenerator.validate_code s = true ↔
        (specCodeFormat s ∨ ∃ t : String, specCodeFormat t ∧ s = t ++ "\n"))
    ∧ ∀ pick : Fin 8 → Fin 36,
        CodeGenerator.validate_code (CodeGenerator.generate_code pick) = true := by
  constructor
  · intro s
    unfold CodeGenerator.validate_code specCodeFormat
    simp only [Bool.or_eq_true, Bool.and_eq_true, beq_iff_eq, List.all_eq_true, isCodeChar_iff]
    constructor
    · rintro (⟨h8, hall⟩ | ⟨⟨h9, htake⟩, hlast⟩)
      · exact Or.inl ⟨h8, hall⟩
      · have hd1 : (s.data.drop 8).length = 1 := by
          rw [List.length_drop, h9]
        rcases List.length_eq_one.mp hd1 with ⟨a, ha⟩
        have hsplit : s.data = s.data.take 8 ++ [a] := by
          rw [← ha, List.take_append_drop]
        have hnl : a = '\n' := by
          rw [hsplit, List.getLast?_concat] at hlast
          exact Option.some.inj hlast
        refine Or.inr ⟨String.mk (s.data.take 8), ⟨?_, htake⟩, ?_⟩
        · show (s.data.take 8).length = 8
          rw [List.length_take, h9]
          decide
        · apply string_ext
          rw [string_append_data]
          show s.data = s.data.take 8 ++ ['\n']
          rw [← hnl]
          exact hsplit
    · rintro (⟨h8, hall⟩ | ⟨t, ⟨ht8, htall⟩, rfl⟩)
      · exact Or.inl ⟨h8, hall⟩
      · refine Or.inr ⟨⟨?_, ?_⟩, ?_⟩
        · rw [string_append_data]
          show (t.data ++ ['\n']).length = 9
          rw [List.length_append, ht8]
          rfl
        · rw [string_append_data]
          intro x hx
          rw [show ("\n" : String).data = ['\n'] from rfl, List.take_left' ht8] at hx
          exact htall x hx
        · rw [string_append_data]
          show (t.data ++ ['\n']).getLast? = some '\n'
          exact List.getLast?_concat t.data
  · intro pick
    unfold CodeGenerator.validate_code CodeGenerator.generate_code
    simp only [Bool.or_eq_true, Bool.and_eq_true, beq_iff_eq, List.all_eq_true]
    left
    constructor
    · show ((List.finRange 8).map _).length = 8
      rw [List.length_map, List.length_finRange]
    · intro x hx
      rcases List.mem_map.mp hx with ⟨i, _, rfl⟩
      exact getD_codeAlphabet_isCodeChar (pick i)

/-- C7 counterexample: user 5 is already whitelisted in `dbEx`, yet adding
them again reports success — `add_to_whitelist` returns `True`
unconditionally after `INSERT OR IGNORE`, so the admin is shown the success
message rather than the already-present failure message; the entry count
nevertheless stays at one. -/
theorem duplicate_whitelist_add_reports_success :
    Database.is_whitelisted dbEx 5 = true
    ∧ (process_whitelist_add dbEx 42 "5").2 = WlReply.success
    ∧ ((process_whitelist_add dbEx 42 "5").1.whitelist.filter
        (fun w => w.user_id == 5)).length = 1 := by
  decide

/-- C7 (amended): whitelist insertion is idempotent on the stored entries —
inserting a not-yet-whitelisted identity and then inserting it again leaves
exactly one matching entry, the second call leaving the state unchanged; but
that second call still reports `True` rather than no-new-row, so the admin is
shown the success message, not the already-present failure message. -/
theorem whitelist_insert_idempotent_entries
    (db : DBState) (uid a1 a2 : Int)
    (h : Database.is_whitelisted db uid = false) :
    Database.add_to_whitelist (Database.add_to_whitelist db uid a1).1 uid a2 =
      ((Database.add_to_whitelist db uid a1).1, true)
    ∧ ((Database.add_to_whitelist db uid a1).1.whitelist.filter
        (fun w => w.user_id == uid)).length = 1 := by
  have h0 : db.whitelist.any (fun w => w.user_id == uid) = false := h
  have hfilter : db.whitelist.filter (fun w => w.user_id == uid) = [] := by
    rw [List.filter_eq_nil_iff]
    intro w hw
    have hww := List.any_eq_false.mp h0 w hw
    simpa using hww
  constructor
  · simp [Database.add_to_whitelist, h0, List.any_append]
  · simp [Database.add_to_whitelist, h0, List.filter_append, hfilter]

/-- Witness for the C7 amended theorem: in `dbNoWl` nobody is whitelisted;
adding user 5 twice leaves one entry and the second call returns the
unchanged state together with `True`. -/
theorem whitelist_insert_idempotent_entries_witness :
    Database.add_to_whitelist (Database.add_to_whitelist dbNoWl 5 42).1 5 42 =
      ((Database.add_to_whitelist dbNoWl 5 42).1, true)
    ∧ ((Database.add_to_whitelist dbNoWl 5 42).1.whitelist.filter
        (fun w => w.user_id == 5)).length = 1 :=
  whitelist_insert_idempotent_entries dbNoWl 5 42 42 (by decide)

/-- C8 counterexample: the generic fallback `answer_document` is not inside
the `try`, so when the primary send and the fallback both fail on the first
item, the exception propagates: the loop aborts (completion flag `false`)
and the second item of the bundle is never attempted — one failing item
aborts the rest of the batch. -/
theorem delivery_aborts_when_fallback_fails :
    deliver_items (fun _ => false) (fun _ => false) [itemEx, itemEx2] =
      ([(itemEx, false)], false)
    ∧ itemEx ≠ itemEx2 := by
  decide

/-- C8 (amended): a failing primary send is caught and the generic
document-send fallback is attempted for that item; delivery continues past a
failing item and the whole batch completes provided the fallback send
succeeds for every item whose primary send fails — only a failure of the
fallback itself aborts the remainder. -/
theorem delivery_continues_given_fallback_success
    (psend fsend : ItemRow → Bool) :
    ∀ items : List ItemRow,
      (∀ it ∈ items, psend it = false → fsend it = true) →
      deliver_items psend fsend items = (items.map (fun it => (it, true)), true)
  | [], _ => rfl
  | it :: rest, h => by
      have ih := delivery_continues_given_fallback_success psend fsend rest
        (fun y hy => h y (List.mem_cons_of_mem it hy))
      unfold deliver_items
      cases hp : psend it with
      | true => simp [ih]
      | false =>
          have hf : fsend it = true := h it (List.mem_cons_self it rest) hp
          simp [hf, ih]

/-- Witness for the C8 amended theorem: a failing primary send with a
succeeding fallback still delivers the single-item batch to completion. -/
theorem delivery_continues_witness :
    deliver_items (fun _ => false) (fun _ => true) [itemEx] = ([(itemEx, true)], true) :=
  delivery_continues_given_fallback_success (fun _ => false) (fun _ => true) [itemEx]
    (fun _ _ _ => rfl)

/-- Uppercasing any per-character case variant of an alphabet string
restores the original string. -/
theorem map_upper_of_caseVariant :
    ∀ (m l : List Char), caseVariant m l = true → (∀ x ∈ l, x ∈ codeAlphabet) →
      m.map Char.toUpper = l
  | [], [], _, _ => rfl
  | [], _ :: _, h, _ => by simp [caseVariant] at h
  | _ :: _, [], h, _ => by simp [caseVariant] at h
  | mc :: ms, cc :: cs, h, hl => by
      unfold caseVariant at h
      simp only [Bool.and_eq_true, Bool.or_eq_true, beq_iff_eq] at h
      obtain ⟨hor, hrest⟩ := h
      have hcc : cc ∈ codeAlphabet := hl cc (List.mem_cons_self cc cs)
      have hup : mc.toUpper = cc := by
        rcases hor with rfl | rfl
        · exact toUpper_eq_of_mem hcc
        · exact toUpper_toLower_of_mem hcc
      rw [List.map_cons, hup,
          map_upper_of_caseVariant ms cs hrest
            (fun y hy => hl y (List.mem_cons_of_mem cc hy))]

/-- No character of a per-character case variant of an alphabet string is
whitespace. -/
theorem not_space_of_caseVariant :
    ∀ (m l : List Char), caseVariant m l = true → (∀ x ∈ l, x ∈ codeAlphabet) →
      ∀ x ∈ m, pyIsSpace x = false
  | [], [], _, _ => by intro x hx; cases hx
  | [], _ :: _, h, _ => by simp [caseVariant] at h
  | _ :: _, [], h, _ => by simp [caseVariant] at h
  | mc :: ms, cc :: cs, h, hl => by
      unfold caseVariant at h
      simp only [Bool.and_eq_true, Bool.or_eq_true, beq_iff_eq] at h
      obtain ⟨hor, hrest⟩ := h
      have hcc : cc ∈ codeAlphabet := hl cc (List.mem_cons_self cc cs)
      intro x hx
      rcases List.mem_cons.mp hx with rfl | hx2
      · rcases hor with rfl | rfl
        · exact not_space_of_mem hcc
        · exact not_space_toLower_of_mem hcc
      · exact not_space_of_caseVariant ms cs hrest
          (fun y hy => hl y (List.mem_cons_of_mem cc hy)) x hx2

/-- C10: in the awaiting-code state the submitted text is normalized by
`strip().upper()` before format validation and bundle lookup, so every
variant of a stored-format code that surrounds a per-character case variant
of it (each character kept as is or lowercased — covering both the plain
whitespace-padded variant and the lowercase variant) with whitespace pads
behaves exactly like the code itself: same validation outcome, same bundle,
same delivered items. -/
theorem code_submission_normalization
    (db : DBState) (c : String) (m w1 w2 : List Char)
    (hcode : ∀ ch ∈ c.data, ch ∈ codeAlphabet)
    (hvar : caseVariant m c.data = true)
    (h1 : ∀ ch ∈ w1, pyIsSpace ch = true)
    (h2 : ∀ ch ∈ w2, pyIsSpace ch = true) :
    process_code db (String.mk (w1 ++ m ++ w2)) = process_code db c := by
  have hm : ∀ x ∈ m, pyIsSpace x = false :=
    not_space_of_caseVariant m c.data hvar hcode
  have hnorm : normalize_submission (String.mk (w1 ++ m ++ w2))
      = normalize_submission c := by
    unfold normalize_submission pyUpper pyStrip
    show String.mk ((pyStripList (w1 ++ m ++ w2)).map Char.toUpper)
        = String.mk ((pyStripList c.data).map Char.toUpper)
    rw [pyStripList_pad w1 _ w2 h1 h2 hm,
        pyStripList_eq_self c.data (fun x hx => not_space_of_mem (hcode x hx)),
        map_upper_of_caseVariant m c.data hvar hcode,
        map_eq_self_of_mem (fun x hx => toUpper_eq_of_mem (hcode x hx))]
  unfold process_code
  rw [hnorm]

/-- Witness for C10: both the whitespace-padded original-case variant and
the whitespace-padded lowercased variant of the stored code `ABCD1234`
redeem the same bundle as the code itself, namely the delivery of its
item. -/
theorem code_submission_normalization_witness :
    process_code dbEx (String.mk ([' '] ++ ("ABCD1234" : String).data ++ [' ']))
      = process_code dbEx "ABCD1234"
    ∧ process_code dbEx
        (String.mk ([' '] ++ ("ABCD1234" : String).data.map Char.toLower ++ ['\n', ' ']))
      = process_code dbEx "ABCD1234"
    ∧ process_code dbEx "ABCD1234" = CodeReply.delivered [itemEx] :=
  ⟨code_submission_normalization dbEx "ABCD1234" ("ABCD1234" : String).data [' '] [' ']
      (by decide) (by decide) (by decide) (by decide),
   code_submission_normalization dbEx "ABCD1234"
      (("ABCD1234" : String).data.map Char.toLower) [' '] ['\n', ' ']
      (by decide) (by decide) (by decide) (by decide),
   by decide⟩
